import Mathlib

/-!
Verification development for the celine nudging engine
(`src/celine/nudging/engine/engine_service.py`,
 `src/celine/nudging/orchestrator/orchestrator.py`,
 `src/celine/nudging/orchestrator/preferences.py`,
 `src/celine/nudging/db/models.py`).

The Python code is shallowly embedded: fact bundles become finite maps
`String → Option FactVal`, the relational store becomes lists of row
structures threaded through the operations, and the dedup unique
constraint (`uq_nudges_dedup_key`) becomes an explicit conflict check on
insertion.  Randomness (`uuid4`) and the current UTC time are passed in
as explicit parameters.
-/

namespace Nudging

/-- A JSON/Python fact value: a string or a number.  Fact bundles in the
engine's paths of interest carry these two shapes; other JSON shapes are
outside the embedded fragment. -/
inductive FactVal where
  | s (v : String)
  | n (v : Rat)
deriving Repr, DecidableEq

/-- Python truthiness for a fact value (`""` and `0` are falsy). -/
def FactVal.truthy : FactVal → Bool
  | .s v => v ≠ ""
  | .n q => q ≠ 0

/-- Python `str()` of a fact value (on numbers: decimal rendering; only
string-valued facts flow into the paths proved below). -/
def FactVal.pyStr : FactVal → String
  | .s v => v
  | .n q => toString q

/-- A fact bundle (`facts: dict`): presence of a key is `some`. -/
def Facts : Type := String → Option FactVal

/-- Dict update `out[k] = v` (returns the updated copy, as the Python
helpers do on `dict(facts)`). -/
def Facts.set (f : Facts) (k : String) (v : FactVal) : Facts :=
  fun k' => if k' = k then some v else f k'

/-- Python `a or b` on optional fact values: falsy (`None`, `""`, `0`)
falls through to `b`. -/
def pyOr (a b : Option FactVal) : Option FactVal :=
  match a with
  | some v => if v.truthy then some v else b
  | none => b

/-- Python `str.strip()` (ASCII whitespace), computed on the character
list so the kernel can evaluate it. -/
def strTrim (x : String) : String :=
  ⟨((x.toList.dropWhile Char.isWhitespace).reverse.dropWhile
      Char.isWhitespace).reverse⟩

/-- Python `str.lower()` (ASCII), computed on the character list so the
kernel can evaluate it. -/
def strToLower (x : String) : String :=
  ⟨x.toList.map Char.toLower⟩

/-- SQL `LIKE 'base%'` / Python prefix test, computed on the character
lists so the kernel can evaluate it. -/
def strStartsWith (x base : String) : Bool :=
  base.toList.isPrefixOf x.toList

/-- Result of `_infer_time_scope`: inferred frequency plus the stable
scope value used for dedup. -/
structure TimeScope where
  frequency : String
  scope : String
deriving Repr, DecidableEq

/-- The regex `^\d{4}-\d{2}-\d{2}$` (`_DAILY_RE`). -/
def matchDaily (x : String) : Bool :=
  match x.toList with
  | [a, b, c, d, '-', e, f, '-', g, h] =>
    a.isDigit && b.isDigit && c.isDigit && d.isDigit &&
    e.isDigit && f.isDigit && g.isDigit && h.isDigit
  | _ => false

/-- The regex `^\d{4}-W\d{2}$` (`_WEEKLY_RE`). -/
def matchWeekly (x : String) : Bool :=
  match x.toList with
  | [a, b, c, d, '-', 'W', e, f] =>
    a.isDigit && b.isDigit && c.isDigit && d.isDigit && e.isDigit && f.isDigit
  | _ => false

/-- The regex `^\d{4}-\d{2}$` (`_MONTHLY_RE`). -/
def matchMonthly (x : String) : Bool :=
  match x.toList with
  | [a, b, c, d, '-', e, f] =>
    a.isDigit && b.isDigit && c.isDigit && d.isDigit && e.isDigit && f.isDigit
  | _ => false

/-- The regex `^\d{4}$` (`_YEARLY_RE`). -/
def matchYearly (x : String) : Bool :=
  match x.toList with
  | [a, b, c, d] => a.isDigit && b.isDigit && c.isDigit && d.isDigit
  | _ => false

/-- Classification step shared by `_infer_time_scope`: the four pattern
tests in source order on an already-stripped string. -/
def classifyTimeString (r : String) : Option TimeScope :=
  if matchDaily r then some ⟨"daily", r⟩
  else if matchWeekly r then some ⟨"weekly", r⟩
  else if matchMonthly r then some ⟨"monthly", r⟩
  else if matchYearly r then some ⟨"yearly", r⟩
  else none

/-- `_infer_time_scope`: first truthy value among `time`, `date`, `week`,
`period`; must be a non-blank string; classified by pattern. -/
def infer_time_scope (facts : Facts) : Option TimeScope :=
  let raw := pyOr (facts "time")
    (pyOr (facts "date") (pyOr (facts "week") (facts "period")))
  match raw with
  | some (.s r) =>
    if strTrim r = "" then none
    else classifyTimeString (strTrim r)
  | _ => none

/-- `_normalize_time_fields`: mirror the canonical scope into `time` and
the frequency-appropriate key. -/
def normalize_time_fields (facts : Facts) (ts : TimeScope) : Facts :=
  let out := facts.set "time" (.s ts.scope)
  if ts.frequency = "daily" then out.set "date" (.s ts.scope)
  else if ts.frequency = "weekly" then out.set "week" (.s ts.scope)
  else if ts.frequency = "monthly" then out.set "period" (.s ts.scope)
  else if ts.frequency = "yearly" then out.set "period" (.s ts.scope)
  else out

/-- `_validate_facts_contract`: `facts_version` and `scenario` must be
non-empty strings. -/
def validate_facts_contract (facts : Facts) : Bool × List String :=
  let errors : List String :=
    (match facts "facts_version" with
     | some (.s v) => if v = "" then ["missing facts_version"] else []
     | _ => ["missing facts_version"]) ++
    (match facts "scenario" with
     | some (.s v) => if v = "" then ["missing scenario"] else []
     | _ => ["missing scenario"])
  (errors.isEmpty, errors)

/-- One `{fact_key, op, value}` clause of a `kpi_conditions` definition
(validated by `seed/loader.py`; `_evaluate_rule` never reads them). -/
structure Condition where
  fact_key : String
  op : String
  value : FactVal
deriving Repr, DecidableEq

/-- The `definition` JSON document of a `Rule` row, restricted to the
keys the engine reads (plus `conditions`, which it does not read). -/
structure RuleDef where
  kind : Option String := none
  dedup_window : Option String := none
  required_facts : List String := []
  threshold_pct : Option Rat := none
  conditions : List Condition := []
  scenarios : List String := []
deriving Repr, DecidableEq

/-- The `rules` table row (`db/models.py`), the columns the engine reads. -/
structure Rule where
  id : String
  enabled : Bool := true
  family : String := ""
  type : String := "informative"
  severity : String := "info"
  definition : RuleDef := {}
deriving Repr, DecidableEq

/-- The `templates` table row; unique on `(rule_id, lang)`. -/
structure Template where
  rule_id : String
  lang : String := "en"
  title_jinja : String := ""
  body_jinja : String := ""
deriving Repr, DecidableEq

/-- The `user_preferences` table row, the columns the core reads;
unique on `(user_id, community_id)`. -/
structure UserPreference where
  user_id : String
  community_id : Option String := none
  lang : String := "en"
  max_per_day : Int := 3
deriving Repr, DecidableEq

/-- Application settings (`config/settings.py`), the fields the engine
reads.  `SCENARIO_TO_RULE_ID` is absent from the settings class, so
`getattr(..., None)` yields `None`; it is kept optional here exactly as
the resolver probes for it. -/
structure Settings where
  SCENARIO_TO_RULE_IDS : Option (List (String × List String)) := none
  SCENARIO_TO_RULE_ID : Option (List (String × String)) := none
  DEFAULT_LANG : String := "en"
deriving Repr, DecidableEq

/-- `dict.get` on an association list. -/
def dictGet (m : List (String × α)) (k : String) : Option α :=
  (m.find? (fun p => p.1 = k)).map (fun p => p.2)

/-- `_resolve_rule_ids_from_scenario`: multi mapping first (an existing
entry returns early, filtered to non-empty strings), then the legacy
single mapping, then the dev fallback returning the scenario itself. -/
def resolve_rule_ids_from_scenario (st : Settings) (scenario : String) :
    List String :=
  let fallback : List String := if scenario ≠ "" then [scenario] else []
  match st.SCENARIO_TO_RULE_IDS.bind (fun m => dictGet m scenario) with
  | some val => val.filter (fun x => x ≠ "")
  | none =>
    match st.SCENARIO_TO_RULE_ID.bind (fun m => dictGet m scenario) with
    | some rid => if rid ≠ "" then [rid] else fallback
    | none => fallback

/-- `_filter_rule_ids_by_definition`: among the enabled rules with the
candidate ids, keep those whose `definition.dedup_window` (lower-cased,
absent ↦ `""`) equals the inferred frequency. -/
def filter_rule_ids_by_definition (rules : List Rule) (ruleIds : List String)
    (frequency : String) : List String :=
  let rows := rules.filter (fun r => ruleIds.contains r.id && r.enabled)
  let wanted := strTrim (strToLower frequency)
  rows.filterMap (fun r =>
    let window := strToLower (r.definition.dedup_window.getD "")
    if window = wanted then some r.id else none)

/-- `_resolve_lang`: explicit `facts["lang"]`, else the user preference
row's `lang`, else `settings.DEFAULT_LANG`. -/
def resolve_lang (st : Settings) (prefs : List UserPreference)
    (userId : String) (facts : Facts) : String :=
  let fromPref : String :=
    match (prefs.find? (fun p => p.user_id = userId)).map (fun p => p.lang) with
    | some l => if l ≠ "" then l else st.DEFAULT_LANG
    | none => st.DEFAULT_LANG
  match facts "lang" with
  | some (.s v) => if v ≠ "" then v else fromPref
  | _ => fromPref

/-- `compute_dedup_key`: the stable key for CREATED rows. -/
def compute_dedup_key (ruleId userId scope : String) : String :=
  ruleId ++ ":" ++ userId ++ ":" ++ scope

/-- `_attempt_dedup_key`: uniquified key for audit rows; `uuidHex`
stands for `uuid4().hex`. -/
def attempt_dedup_key (ruleId userId scope uuidHex : String) : String :=
  "attempt:" ++ ruleId ++ ":" ++ userId ++ ":" ++ scope ++ ":" ++ uuidHex

/-- `_validate_required_facts`: all keys in
`definition.required_facts` must be present in the facts dict. -/
def validate_required_facts (rule : Rule) (facts : Facts) :
    Bool × List String :=
  let required := rule.definition.required_facts
  if required.isEmpty then (true, [])
  else
    let missing := required.filter (fun k => facts k = none)
    (missing.isEmpty, missing)

/-- Python `float(x)` on a plain decimal string (optional sign, digits,
optional fractional part); exotic accepted spellings (exponents,
`inf`, …) are outside the embedded fragment. -/
def parseDecimal (x : String) : Option Rat :=
  let t := (strTrim x).toList
  let (sign, rest) : Rat × List Char :=
    match t with
    | '-' :: r => (-1, r)
    | '+' :: r => (1, r)
    | r => (1, r)
  let intPart := rest.takeWhile Char.isDigit
  let rest2 := rest.drop intPart.length
  let digitsVal : List Char → Nat :=
    fun ds => ds.foldl (fun acc c => 10 * acc + (c.toNat - '0'.toNat)) 0
  match rest2 with
  | [] =>
    if intPart.isEmpty then none else some (sign * (digitsVal intPart : Rat))
  | '.' :: frac =>
    if frac.all Char.isDigit && !(intPart.isEmpty && frac.isEmpty) then
      some (sign * ((digitsVal intPart : Rat) +
        (digitsVal frac : Rat) / ((10 : Rat) ^ frac.length)))
    else none
  | _ => none

/-- Python `float(v)` on a fact value. -/
def FactVal.toFloat : FactVal → Option Rat
  | .n q => some q
  | .s v => parseDecimal v

/-- `_evaluate_imported_up`: numeric `delta_pct` strictly above
`threshold_pct` (default `20.0`). -/
def evaluate_imported_up (rule : Rule) (facts : Facts) :
    Bool × Facts × Option String :=
  let threshold : Rat := rule.definition.threshold_pct.getD 20
  match facts "delta_pct" with
  | none => (false, facts, some "missing_fact:delta_pct")
  | some v =>
    match v.toFloat with
    | none => (false, facts.set "delta_pct" v, some "invalid_fact:delta_pct")
    | some d =>
      let enriched := facts.set "threshold_pct" (.n threshold)
      if d > threshold then (true, enriched, none)
      else (false, enriched, some "condition_not_met")

/-- `_evaluate_imported_down`: numeric `delta_pct` strictly below
`threshold_pct` (default `-5.0`). -/
def evaluate_imported_down (rule : Rule) (facts : Facts) :
    Bool × Facts × Option String :=
  let threshold : Rat := rule.definition.threshold_pct.getD (-5)
  match facts "delta_pct" with
  | none => (false, facts, some "missing_fact:delta_pct")
  | some v =>
    match v.toFloat with
    | none => (false, facts.set "delta_pct" v, some "invalid_fact:delta_pct")
    | some d =>
      let enriched := facts.set "threshold_pct" (.n threshold)
      if d < threshold then (true, enriched, none)
      else (false, enriched, some "condition_not_met")

/-- `_evaluate_static_message`: always triggers. -/
def evaluate_static_message (_rule : Rule) (facts : Facts) :
    Bool × Facts × Option String :=
  (true, facts, none)

/-- `_evaluate_passthrough`: always triggers. -/
def evaluate_passthrough (_rule : Rule) (facts : Facts) :
    Bool × Facts × Option String :=
  (true, facts, none)

/-- `_evaluate_rule`: dispatch on `definition.kind` (stripped,
lower-cased).  Every kind without a dedicated branch — `kpi_conditions`
included — falls to the default passthrough (the function ends with
`# TODO - Aggiungere evaluate per tutte le altre regole`). -/
def evaluate_rule (rule : Rule) (facts : Facts) :
    Bool × Facts × Option String :=
  let kind := strToLower (strTrim (rule.definition.kind.getD ""))
  if kind = "static_message" then evaluate_static_message rule facts
  else if kind = "imported_up" then evaluate_imported_up rule facts
  else if kind = "imported_down" then evaluate_imported_down rule facts
  else if kind = "sunny_pros" ∨ kind = "sunny_cons" ∨ kind = "extr_event" then
    evaluate_passthrough rule facts
  else if kind = "price_up" ∨ kind = "price_down" then
    evaluate_passthrough rule facts
  else evaluate_passthrough rule facts

/-- `_should_skip_dedup` — defined in the source but never called. -/
def should_skip_dedup (rule : Rule) : Bool :=
  strToLower (rule.definition.dedup_window.getD "") = "always"

/-- The `datetime.utcnow().strftime(...)` values `_dedup_scope` may fall
back to, passed in explicitly to keep the embedding pure. -/
structure NowParts where
  year : String := "2026"
  month : String := "2026-02"
  day : String := "2026-02-24"
  week : String := "2026-W08"
  hour : String := "2026-02-24T10"
deriving Repr, DecidableEq

/-- Python `str(facts.get(k) or dflt)`. -/
def Facts.getStrOr (facts : Facts) (k : String) (dflt : String) : String :=
  match facts k with
  | some v => if v.truthy then v.pyStr else dflt
  | none => dflt

/-- `_dedup_scope`: window = `definition.dedup_window or "monthly"`,
lower-cased and stripped; `always`/`once`/`one` ↦ the constant
`"once"`; the period windows read the matching normalized fact with a
current-UTC fallback; everything else falls to the monthly bucket. -/
def dedup_scope (rule : Rule) (facts : Facts) (now : NowParts) : String :=
  let window :=
    (match rule.definition.dedup_window with
     | some w => if w ≠ "" then w else "monthly"
     | none => "monthly") |> strToLower |> strTrim
  if window = "always" ∨ window = "once" ∨ window = "one" then "once"
  else if window = "yearly" then facts.getStrOr "year" now.year
  else if window = "daily" then facts.getStrOr "date" now.day
  else if window = "weekly" then
    (match facts "week" with
     | some (.s w) => if w ≠ "" then w else now.week
     | _ => now.week)
  else if window = "hourly" then facts.getStrOr "hour" now.hour
  else facts.getStrOr "period" now.month

/-- `EngineResultStatus`. -/
inductive EngineResultStatus where
  | created
  | not_triggered
  | missing_facts
  | unknown_scenario
  | suppressed_dedup
deriving Repr, DecidableEq

/-- The `.value` string stored in the `status` column. -/
def EngineResultStatus.value : EngineResultStatus → String
  | .created => "created"
  | .not_triggered => "not_triggered"
  | .missing_facts => "missing_facts"
  | .unknown_scenario => "unknown_scenario"
  | .suppressed_dedup => "suppressed_dedup"

/-- `EngineResult`, restricted to status, reason and (for CREATED) the
id of the built `NudgeEvent`; the `details` dict is audit payload and is
not load-bearing for the claims proved here. -/
structure EngineResult where
  status : EngineResultStatus
  reason : Option String := none
  nudgeId : Option String := none
deriving Repr, DecidableEq

/-- A `nudges_log` row (the columns the core writes; the JSON `payload`
is audit-only and omitted).  `community_id` is nullable and never set by
the engine. -/
structure NudgeRow where
  id : String
  rule_id : String
  user_id : String
  community_id : Option String := none
  dedup_key : String
  status : String
deriving Repr, DecidableEq

/-- A `notifications` row (the columns the orchestrator reads). -/
structure NotificationRow where
  id : String
  nudge_log_id : Option String := none
  rule_id : String := ""
  user_id : String := ""
  title : String := ""
  body : String := ""
  status : String := "pending"
deriving Repr, DecidableEq

/-- A `delivery_log` row.  `sentDay` abstracts `func.date(sent_at)` as
an ordinal day number (`none` when `sent_at` is NULL). -/
structure DeliveryRow where
  id : String
  nudge_id : String := ""
  channel : String := "web"
  destination : String
  status : String
  error : Option String := none
  sentDay : Option Int := none
deriving Repr, DecidableEq

/-- The relational store: the three tables the core writes. -/
structure Store where
  nudgeLogs : List NudgeRow := []
  notifications : List NotificationRow := []
  deliveryLogs : List DeliveryRow := []
deriving Repr, DecidableEq

/-- `_log_status`: append an audit row.  CREATED uses the stable key
(or an attempt key when absent) and the nudge id; every other status
uses an attempt key (containing `uuid4().hex`, passed as `uuidHex`) so
the audit write never collides with `uq_nudges_dedup_key`. -/
def log_status (st : Store) (status : EngineResultStatus)
    (ruleId userId scope : String) (createdDedupKey : Option String)
    (nudgeId : Option String) (uuidHex : String) : Store :=
  let dedupKey :=
    if status = .created then
      createdDedupKey.getD (attempt_dedup_key ruleId userId scope uuidHex)
    else attempt_dedup_key ruleId userId scope uuidHex
  let logId :=
    if status = .created then nudgeId.getD uuidHex else uuidHex
  { st with nudgeLogs := st.nudgeLogs ++
      [{ id := logId, rule_id := ruleId, user_id := userId,
         dedup_key := dedupKey, status := status.value }] }

/-- `_load_rule_and_template`: the enabled rule by id, then the template
for exactly the requested language — there is no fallback lookup. -/
def load_rule_and_template (rules : List Rule) (templates : List Template)
    (ruleId lang : String) : Except String (Rule × Template) :=
  match rules.find? (fun r => r.id = ruleId && r.enabled) with
  | none => .error ("Rule not found or disabled: " ++ ruleId)
  | some rule =>
    match templates.find? (fun t => t.rule_id = rule.id && t.lang = lang) with
    | none =>
      .error ("Template not found for rule=" ++ ruleId ++ " lang=" ++ lang)
    | some tmpl => .ok (rule, tmpl)

/-- The inbound `DigitalTwinEvent` identity fields the engine reads. -/
structure Evt where
  user_id : String
  community_id : Option String := none
deriving Repr, DecidableEq

/-- The final insert of `_run_single_rule` (lines 683–727): try to add
the CREATED `NudgeLog` row under the dedup key; a `uq_nudges_dedup_key`
conflict (`IntegrityError`) rolls the insert back and downgrades the
outcome to SUPPRESSED_DEDUP, audited under an attempt key. -/
def try_create_nudge (st : Store) (ruleId userId scope dk : String)
    (nudgeUuid attemptUuid : String) : EngineResult × Store :=
  if st.nudgeLogs.any (fun r => r.dedup_key = dk) then
    ({ status := .suppressed_dedup, reason := some "duplicate_in_dedup_window" },
     log_status st .suppressed_dedup ruleId userId scope none none attemptUuid)
  else
    ({ status := .created, nudgeId := some nudgeUuid },
     { st with nudgeLogs := st.nudgeLogs ++
        [{ id := nudgeUuid, rule_id := ruleId, user_id := userId,
           dedup_key := dk, status := "created" }] })

/-- Scope string used when auditing a rule/template lookup failure:
`str(facts.get("time") or ... or "__no_scope__")`. -/
def fallbackScope (facts : Facts) : String :=
  match pyOr (facts "time")
    (pyOr (facts "date") (pyOr (facts "week") (facts "period"))) with
  | some v => if v.truthy then v.pyStr else "__no_scope__"
  | none => "__no_scope__"

/-- `_run_single_rule`.  Jinja expansion is an external collaborator;
the rendered title/body are the template text under this embedding and
are not load-bearing for any claim.  `nudgeUuid`/`attemptUuid` stand for
the run's `uuid4()` draws. -/
def run_single_rule (rules : List Rule) (templates : List Template)
    (st : Store) (evt : Evt) (ruleId scenario lang : String)
    (factsIn : Facts) (now : NowParts) (nudgeUuid attemptUuid : String) :
    EngineResult × Store :=
  match load_rule_and_template rules templates ruleId lang with
  | .error e =>
    ({ status := .unknown_scenario, reason := some e },
     log_status st .unknown_scenario ruleId evt.user_id
       (fallbackScope factsIn) none none attemptUuid)
  | .ok (rule, _tmpl) =>
    let scope := dedup_scope rule factsIn now
    let okReq := (validate_required_facts rule factsIn).1
    if !okReq then
      ({ status := .missing_facts, reason := some "missing_required_facts" },
       log_status st .missing_facts rule.id evt.user_id scope none none
         attemptUuid)
    else
      let triggered := (evaluate_rule rule factsIn).1
      let reason := (evaluate_rule rule factsIn).2.2
      if !triggered then
        ({ status := .not_triggered, reason := some (reason.getD "not_triggered") },
         log_status st .not_triggered rule.id evt.user_id scope none none
           attemptUuid)
      else
        let dk := compute_dedup_key rule.id evt.user_id scope
        try_create_nudge st rule.id evt.user_id scope dk nudgeUuid attemptUuid

/-- The per-rule loop at the end of `run_engine_batch`, threading the
store; `uuids i` stands for the i-th `uuid4()` draw of the batch. -/
def run_rules (rules : List Rule) (templates : List Template) (evt : Evt)
    (scenario lang : String) (factsIn : Facts) (now : NowParts)
    (uuids : Nat → String) :
    List String → Store → Nat → List EngineResult × Store
  | [], st, _ => ([], st)
  | rid :: rest, st, i =>
    let (res, st') := run_single_rule rules templates st evt rid scenario
      lang factsIn now (uuids i) (uuids (i + 1))
    let (more, st'') := run_rules rules templates evt scenario lang factsIn
      now uuids rest st' (i + 2)
    (res :: more, st'')

/-- Python `str(facts.get("scenario") or "unknown")`. -/
def scenarioOrUnknown (facts : Facts) : String :=
  facts.getStrOr "scenario" "unknown"

/-- Python `str(facts_in_raw["scenario"])` after the contract check has
established the key is present. -/
def scenarioOf (facts : Facts) : String :=
  match facts "scenario" with
  | some v => v.pyStr
  | none => ""

/-- `run_engine_batch`: contract validation, time-scope inference and
normalization, scenario → rule-id resolution, frequency filtering, then
one `_run_single_rule` per surviving candidate.  Every early exit writes
its own audit row. -/
def run_engine_batch (settings : Settings) (rules : List Rule)
    (templates : List Template) (prefs : List UserPreference) (st : Store)
    (evt : Evt) (factsRaw : Facts) (langArg : Option String)
    (now : NowParts) (uuids : Nat → String) :
    List EngineResult × Store :=
  let lang :=
    match langArg with
    | some l => if l ≠ "" then l
                else resolve_lang settings prefs evt.user_id factsRaw
    | none => resolve_lang settings prefs evt.user_id factsRaw
  let ok := (validate_facts_contract factsRaw).1
  if !ok then
    ([{ status := .missing_facts, reason := some "invalid_facts_contract" }],
     log_status st .missing_facts "__no_rule__" evt.user_id "__no_scope__"
       none none (uuids 0))
  else
    let scenario := scenarioOf factsRaw
    match infer_time_scope factsRaw with
    | none =>
      ([{ status := .missing_facts,
          reason := some "missing_or_invalid_time_scope" }],
       log_status st .missing_facts "__no_rule__" evt.user_id "__no_scope__"
         none none (uuids 0))
    | some ts =>
      let factsIn := normalize_time_fields factsRaw ts
      let ruleIdsAll := resolve_rule_ids_from_scenario settings scenario
      if ruleIdsAll.isEmpty then
        ([{ status := .unknown_scenario, reason := some "scenario_not_mapped" }],
         log_status st .unknown_scenario "__no_rule__" evt.user_id ts.scope
           none none (uuids 0))
      else
        let ruleIds := filter_rule_ids_by_definition rules ruleIdsAll
          ts.frequency
        if ruleIds.isEmpty then
          ([{ status := .unknown_scenario,
              reason := some "no_rule_for_inferred_frequency" }],
           log_status st .unknown_scenario "__no_rule__" evt.user_id ts.scope
             none none (uuids 0))
        else
          run_rules rules templates evt scenario lang factsIn now uuids
            ruleIds st 1

/-- `get_user_pref` (`orchestrator/preferences.py`): rows for the user
whose `community_id` matches or is NULL, ordered with the
community-specific row first; `(user_id, community_id)` is unique, so at
most one row of each shape exists. -/
def get_user_pref (prefs : List UserPreference) (userId : String)
    (communityId : Option String) : Option UserPreference :=
  let rows := prefs.filter (fun p => p.user_id = userId &&
    (p.community_id.isNone ||
      (communityId.isSome && p.community_id = communityId)))
  match rows.find? (fun p => p.community_id.isSome) with
  | some p => some p
  | none => rows.head?

/-- Modelled from the spec: `can_send_today` is imported from
`celine.nudging.orchestrator.policies`, a module absent from the source
tree.  Spec §4.7: "If count ≥ `max_per_day`: writes a DeliveryLog row
with status `suppressed` … and returns no delivery jobs", so sending is
allowed exactly when the count is still below the cap. -/
def can_send_today (sentToday maxPerDay : Int) : Bool :=
  sentToday < maxPerDay

/-- Effective `max_per_day`: the resolved preference row's value, or the
inline default `3` (`pref.max_per_day if pref else 3`). -/
def effective_max_per_day (prefs : List UserPreference) (userId : String)
    (communityId : Option String) : Int :=
  match get_user_pref prefs userId communityId with
  | some p => p.max_per_day
  | none => 3

/-- Destination base for the rate-limit LIKE pattern:
`web:user` or `web:user:community` (a falsy community id is skipped). -/
def dest_base (n : NudgeRow) : String :=
  match n.community_id with
  | some c => if c ≠ "" then "web:" ++ n.user_id ++ ":" ++ c
              else "web:" ++ n.user_id
  | none => "web:" ++ n.user_id

/-- The orchestrator's rate-limit count: DeliveryLog rows with status
`sent`, destination LIKE `base%`, and `func.date(sent_at) = today`. -/
def sent_today_count (st : Store) (base : String) (today : Int) : Int :=
  ((st.deliveryLogs.filter (fun d => d.status = "sent" &&
    strStartsWith d.destination base && d.sentDay = some today)).length : Int)

/-- A `DeliveryJob` (`orchestrator/models.py`), the fields built by
`orchestrate`. -/
structure DeliveryJob where
  user_id : String
  community_id : Option String := none
  job_id : String
  rule_id : String
  nudge_id : String
  channel : String := "web"
  destination : String
  title : String
  body : String
  dedup_key : String
deriving Repr, DecidableEq

/-- A publisher's `send` result (`publishers/base.py`); the publisher is
an external collaborator and is passed in as a function. -/
structure PublishResult where
  status : String
  error : Option String := none
deriving Repr, DecidableEq

/-- `orchestrate`: load the NudgeLog row and its linked Notification
(`scalar_one`, an error when absent), resolve the effective preference,
count today's sent deliveries by destination base, and either suppress
(rate limited) or dispatch to the publisher and record its outcome.
`uuid` stands for `uuid4().hex`; `today` for `date.today()`.  The
publisher's own DeliveryLog write happens inside the collaborator
boundary and is not part of this store. -/
def orchestrate (prefs : List UserPreference) (st : Store)
    (nudgeId : String) (uuid : String) (today : Int)
    (publish : DeliveryJob → PublishResult) :
    Except String (List DeliveryJob × Store) :=
  match st.nudgeLogs.find? (fun r => r.id = nudgeId) with
  | none => .error "NoResultFound: nudge_log"
  | some n =>
    match st.notifications.filter (fun r => r.nudge_log_id = some nudgeId) with
    | [notification] =>
      let maxPerDay := effective_max_per_day prefs n.user_id n.community_id
      let base := dest_base n
      let sentToday := sent_today_count st base today
      let job : DeliveryJob :=
        { user_id := n.user_id, community_id := n.community_id,
          job_id := uuid, rule_id := n.rule_id, nudge_id := n.id,
          destination := base, title := notification.title,
          body := notification.body, dedup_key := n.dedup_key }
      if !can_send_today sentToday maxPerDay then
        let st' : Store :=
          { st with
            deliveryLogs := st.deliveryLogs ++
              [{ id := job.job_id, nudge_id := job.nudge_id,
                 destination := job.destination, status := "suppressed",
                 error := some "rate_limited", sentDay := none }],
            notifications := st.notifications.map (fun r =>
              if r.id = notification.id then { r with status := "suppressed" }
              else r) }
        .ok ([], st')
      else
        let result := publish job
        let newStatus :=
          if result.status = "sent" then "sent"
          else if result.status = "suppressed" then "suppressed"
          else "failed"
        let st' : Store :=
          { st with notifications := st.notifications.map (fun r =>
              if r.id = notification.id then { r with status := newStatus }
              else r) }
        .ok ([job], st')
    | _ => .error "NoResultFound: notification"

/-! Spec-side comparison definitions. -/

/-- Spec-side preference resolution, written from the spec's words
(§4.7): the community-specific row if present, else the community-null
row.  Compared against `get_user_pref` below. -/
def get_user_pref_spec (prefs : List UserPreference) (userId : String)
    (communityId : Option String) : Option UserPreference :=
  match communityId with
  | some c =>
    (prefs.find? (fun p => p.user_id = userId && p.community_id = some c)).orElse
      (fun _ => prefs.find? (fun p => p.user_id = userId && p.community_id = none))
  | none => prefs.find? (fun p => p.user_id = userId && p.community_id = none)

/-- Spec-side time inference, written from the claim's words: read the
first PRESENT value among `time`, `date`, `week`, `period` in that
priority order and classify the (stripped) string; a non-string or
unrecognized value fails.  Compared against `infer_time_scope` below. -/
def infer_time_scope_claim (facts : Facts) : Option TimeScope :=
  match (facts "time").orElse (fun _ => (facts "date").orElse
    (fun _ => (facts "week").orElse (fun _ => facts "period"))) with
  | some (.s r) =>
    if strTrim r = "" then none
    else classifyTimeString (strTrim r)
  | _ => none

/-- First truthy value of `facts` along a priority list of keys: a
present but falsy value (empty string, zero) is skipped in favor of the
later keys. -/
def firstTruthy (facts : Facts) : List String → Option FactVal
  | [] => none
  | k :: rest =>
    match facts k with
    | some v => if v.truthy then some v else firstTruthy facts rest
    | none => firstTruthy facts rest

/-- Amended spec-side time inference: read the first TRUTHY value among
`time`, `date`, `week`, `period` in that priority order and classify
the (stripped) string; a non-string or unrecognized value fails.
Compared against `infer_time_scope` below. -/
def infer_time_scope_amended (facts : Facts) : Option TimeScope :=
  match firstTruthy facts ["time", "date", "week", "period"] with
  | some (.s r) =>
    if strTrim r = "" then none
    else classifyTimeString (strTrim r)
  | _ => none

/-! Concrete fixtures used by witnesses and counterexamples. -/

/-- A concrete enabled rule with a daily dedup window. -/
def welcomeRule : Rule :=
  { id := "welcome",
    definition := { kind := some "static_message", dedup_window := some "daily",
                    scenarios := ["welcome"] } }

/-- The English template for `welcomeRule`. -/
def welcomeTemplateEn : Template :=
  { rule_id := "welcome", lang := "en", title_jinja := "Hello",
    body_jinja := "Welcome" }

/-- A concrete fact bundle with a valid daily time scope. -/
def dailyFacts : Facts := fun k =>
  if k = "time" then some (.s "2026-02-24")
  else if k = "facts_version" then some (.s "1")
  else if k = "scenario" then some (.s "welcome")
  else none

/-- A concrete settings value mapping `welcome` to the welcome rule. -/
def demoSettings : Settings :=
  { SCENARIO_TO_RULE_IDS := some [("welcome", ["welcome"])] }

/-- A concrete uuid supply for batch runs. -/
def demoUuids : Nat → String := fun i => "uuid" ++ toString i

/-- A concrete rule with `dedup_window = "always"`. -/
def alwaysRule : Rule :=
  { id := "always_rule",
    definition := { kind := some "static_message",
                    dedup_window := some "always",
                    scenarios := ["always_rule"] } }

/-- Template for `alwaysRule`. -/
def alwaysTemplateEn : Template :=
  { rule_id := "always_rule", lang := "en", title_jinja := "T",
    body_jinja := "B" }

/-- A concrete `kpi_conditions` rule with one clause that cannot be met
against `dailyFacts`, because the fact is absent. -/
def kpiRule : Rule :=
  { id := "selfcons_down_weekly_v1",
    definition := { kind := some "kpi_conditions",
                    dedup_window := some "weekly",
                    conditions := [{ fact_key := "ratio_x", op := ">",
                                     value := .n 5 }],
                    scenarios := ["selfcons_down_weekly_v1"] } }

/-- Facts naming a scenario that no rule declares and no mapping knows. -/
def ghostFacts : Facts := fun k =>
  if k = "time" then some (.s "2026-02-24")
  else if k = "facts_version" then some (.s "1")
  else if k = "scenario" then some (.s "ghost")
  else none

/-- Settings that map `ghost` to an empty candidate list. -/
def emptyMappedSettings : Settings :=
  { SCENARIO_TO_RULE_IDS := some [("ghost", [])] }

/-- Facts whose time-like value has an unrecognized format. -/
def badTimeFacts : Facts := fun k =>
  if k = "time" then some (.s "not-a-date")
  else if k = "facts_version" then some (.s "1")
  else if k = "scenario" then some (.s "welcome")
  else none

/-- Facts with a present-but-empty `time` alias next to a valid daily
`date`. -/
def emptyTimeFacts : Facts := fun k =>
  if k = "time" then some (.s "")
  else if k = "date" then some (.s "2026-02-24")
  else if k = "facts_version" then some (.s "1")
  else if k = "scenario" then some (.s "welcome")
  else none

/-- Facts whose only entry is a present-but-empty `period`. -/
def emptyPeriodFacts : Facts := fun k =>
  if k = "period" then some (.s "") else none

/-- A concrete rule with an undocumented dedup window value. -/
def fortnightlyRule : Rule :=
  { id := "fort_rule",
    definition := { kind := some "static_message",
                    dedup_window := some "fortnightly" } }

/-- A created NudgeLog row fixture for orchestration. -/
def createdNudgeRow : NudgeRow :=
  { id := "n1", rule_id := "welcome", user_id := "u1", community_id := none,
    dedup_key := "welcome:u1:2026-02-24", status := "created" }

/-- The notification linked to `createdNudgeRow`. -/
def pendingNotification : NotificationRow :=
  { id := "notif1", nudge_log_id := some "n1", rule_id := "welcome",
    user_id := "u1", title := "Hello", body := "Welcome",
    status := "pending" }

/-- A store holding the created pair and two deliveries already sent
today (ordinal day 20508). -/
def ratedStore : Store :=
  { nudgeLogs := [createdNudgeRow],
    notifications := [pendingNotification],
    deliveryLogs :=
      [{ id := "d1", nudge_id := "old1", channel := "web",
         destination := "web:u1", status := "sent", error := none,
         sentDay := some 20508 },
       { id := "d2", nudge_id := "old2", channel := "web",
         destination := "web:u1", status := "sent", error := none,
         sentDay := some 20508 }] }

/-- A community-null preference row for `u1` with `max_per_day = 2`. -/
def u1Pref : UserPreference :=
  { user_id := "u1", community_id := none, lang := "en", max_per_day := 2 }

/-! Helper lemmas. -/

/-- `List.find?` only depends on the predicate's values on the list's
members. -/
theorem find?_congr_mem {α : Type} {p q : α → Bool} :
    ∀ {l : List α}, (∀ x ∈ l, p x = q x) → l.find? p = l.find? q
  | [], _ => rfl
  | a :: t, h => by
    rw [List.find?_cons, List.find?_cons, h a (List.mem_cons_self a t)]
    cases q a
    · exact find?_congr_mem (fun x hx => h x (List.mem_cons_of_mem a hx))
    · rfl

/-- The filtered-then-ordered preference query of `get_user_pref` is the
spec's two-step lookup. -/
theorem get_user_pref_eq_spec (ps : List UserPreference) (u : String)
    (c : Option String) : get_user_pref ps u c = get_user_pref_spec ps u c := by
  unfold get_user_pref get_user_pref_spec
  dsimp only
  rw [List.find?_filter, List.filter_head?]
  cases c with
  | none =>
    have hnone : List.find?
        (fun (a : UserPreference) => decide ((decide (a.user_id = u) &&
          (a.community_id.isNone ||
            ((none : Option String).isSome && decide (a.community_id = none)))) = true ∧
          a.community_id.isSome = true)) ps = none := by
      rw [List.find?_eq_none]
      intro x _
      cases hcx : x.community_id <;> simp [hcx]
    rw [hnone]
    exact find?_congr_mem (fun x _ => by cases hcx : x.community_id <;> simp [hcx])
  | some cv =>
    have hpred : (fun (a : UserPreference) => decide ((decide (a.user_id = u) &&
        (a.community_id.isNone ||
          ((some cv : Option String).isSome && decide (a.community_id = some cv)))) = true ∧
        a.community_id.isSome = true))
        = (fun a => decide (a.user_id = u) && decide (a.community_id = some cv)) := by
      funext a
      cases hca : a.community_id <;> simp [hca]
    rw [hpred]
    cases hf : ps.find? (fun p => decide (p.user_id = u) && decide (p.community_id = some cv)) with
    | some x => simp [hf, Option.orElse]
    | none =>
      simp only [hf, Option.orElse]
      rw [List.find?_eq_none] at hf
      exact find?_congr_mem (fun (x : UserPreference) hx => by
        by_cases hu : x.user_id = u
        · cases hcx : x.community_id with
          | none => simp [hu, hcx]
          | some w =>
            have hnx := hf x hx
            simp [hu, hcx] at hnx ⊢
            exact hnx
        · simp [hu])

/-! Claim theorems. -/

/-- C1: for every rule, user and dedup scope whose dedup key is not yet
claimed in the store, two submissions of the same logical occurrence —
two atomic inserts on the `uq_nudges_dedup_key` unique index, in
whichever order the race serializes them — yield exactly one CREATED
and one SUPPRESSED_DEDUP outcome: the first insert succeeds, the later
insert hits the constraint, is rolled back, and is downgraded to
SUPPRESSED_DEDUP; exactly one created row with that key exists
afterwards, never two and never zero. -/
theorem c1_duplicate_occurrence_one_created_one_suppressed
    (st : Store) (ruleId userId scope n1 a1 n2 a2 : String)
    (h : ∀ r ∈ st.nudgeLogs, r.dedup_key ≠ compute_dedup_key ruleId userId scope) :
    ((try_create_nudge st ruleId userId scope
        (compute_dedup_key ruleId userId scope) n1 a1).1.status = .created)
    ∧ ((try_create_nudge
          (try_create_nudge st ruleId userId scope
            (compute_dedup_key ruleId userId scope) n1 a1).2
          ruleId userId scope (compute_dedup_key ruleId userId scope) n2 a2).1.status
        = .suppressed_dedup)
    ∧ (((try_create_nudge
          (try_create_nudge st ruleId userId scope
            (compute_dedup_key ruleId userId scope) n1 a1).2
          ruleId userId scope (compute_dedup_key ruleId userId scope) n2 a2).2.nudgeLogs.filter
            (fun r => r.dedup_key = compute_dedup_key ruleId userId scope
              && r.status = "created")).length = 1) := by
  have hany : (st.nudgeLogs.any
      (fun r => r.dedup_key = compute_dedup_key ruleId userId scope)) = false := by
    simp only [List.any_eq_false, decide_eq_true_eq]
    exact h
  have hfil : st.nudgeLogs.filter
      (fun r => r.dedup_key = compute_dedup_key ruleId userId scope
        && r.status = "created") = [] := by
    rw [List.filter_eq_nil_iff]
    intro r hr
    simp only [Bool.and_eq_true, decide_eq_true_eq, not_and]
    intro hk
    exact absurd hk (h r hr)
  refine ⟨?_, ?_, ?_⟩
  · simp [try_create_nudge, hany]
  · simp [try_create_nudge, hany, List.any_append]
  · simp [try_create_nudge, hany, List.any_append, log_status,
      List.filter_append, hfil]
    intro _
    decide

/-- C1 witness: the empty store, rule `welcome`, user `u1`, daily scope. -/
theorem c1_witness :
    (∀ r ∈ (Store.mk [] [] []).nudgeLogs,
      r.dedup_key ≠ compute_dedup_key "welcome" "u1" "2026-02-24")
    ∧ (((try_create_nudge (Store.mk [] [] []) "welcome" "u1" "2026-02-24"
          (compute_dedup_key "welcome" "u1" "2026-02-24") "n1" "a1").1.status = .created)
      ∧ ((try_create_nudge
            (try_create_nudge (Store.mk [] [] []) "welcome" "u1" "2026-02-24"
              (compute_dedup_key "welcome" "u1" "2026-02-24") "n1" "a1").2
            "welcome" "u1" "2026-02-24"
            (compute_dedup_key "welcome" "u1" "2026-02-24") "n2" "a2").1.status
          = .suppressed_dedup)
      ∧ (((try_create_nudge
            (try_create_nudge (Store.mk [] [] []) "welcome" "u1" "2026-02-24"
              (compute_dedup_key "welcome" "u1" "2026-02-24") "n1" "a1").2
            "welcome" "u1" "2026-02-24"
            (compute_dedup_key "welcome" "u1" "2026-02-24") "n2" "a2").2.nudgeLogs.filter
              (fun r => r.dedup_key = compute_dedup_key "welcome" "u1" "2026-02-24"
                && r.status = "created")).length = 1)) :=
  ⟨by simp, c1_duplicate_occurrence_one_created_one_suppressed
    (Store.mk [] [] []) "welcome" "u1" "2026-02-24" "n1" "a1" "n2" "a2" (by simp)⟩

/-- C2 (code bug): the CREATED path of `_run_single_rule` commits only
the NudgeLog row — the single-rule pipeline never touches the
notifications table on any branch — so a concrete created outcome
leaves no Notification row linked to the created NudgeLog, contradicting
the claimed paired insert and one-to-one invariant. -/
theorem c2_created_path_inserts_no_notification :
    (∀ (rules : List Rule) (templates : List Template) (st : Store) (evt : Evt)
      (ruleId scenario lang : String) (factsIn : Facts) (now : NowParts)
      (nu au : String),
      (run_single_rule rules templates st evt ruleId scenario lang factsIn now
        nu au).2.notifications = st.notifications)
    ∧ ((run_single_rule [welcomeRule] [welcomeTemplateEn] (Store.mk [] [] [])
        ⟨"u1", none⟩ "welcome" "welcome" "en" dailyFacts {} "n1" "a1").1.status
        = .created)
    ∧ ((run_single_rule [welcomeRule] [welcomeTemplateEn] (Store.mk [] [] [])
        ⟨"u1", none⟩ "welcome" "welcome" "en" dailyFacts {} "n1" "a1").2.notifications
        = []) := by
  refine ⟨?_, by decide, by decide⟩
  intro rules templates st evt ruleId scenario lang factsIn now nu au
  unfold run_single_rule
  split
  · simp [log_status]
  · dsimp only
    split
    · simp [log_status]
    · split
      · simp [log_status]
      · unfold try_create_nudge
        split
        · simp [log_status]
        · simp

/-- C3 (code bug): for every rule with `dedup_window = "always"`, the
computed dedup scope is the constant `"once"` — not a fresh random
value — so identical submissions deduplicate: concretely, the second of
two identical submissions for an always-window rule is downgraded to
SUPPRESSED_DEDUP instead of producing a second CREATED outcome. -/
theorem c3_always_window_dedups_via_constant_scope :
    (∀ (r : Rule) (facts : Facts) (now : NowParts),
      dedup_scope
        { r with definition := { r.definition with dedup_window := some "always" } }
        facts now = "once")
    ∧ ((run_single_rule [alwaysRule] [alwaysTemplateEn] (Store.mk [] [] [])
        ⟨"u1", none⟩ "always_rule" "always_rule" "en" dailyFacts {} "n1" "a1").1.status
        = .created)
    ∧ ((run_single_rule [alwaysRule] [alwaysTemplateEn]
        (run_single_rule [alwaysRule] [alwaysTemplateEn] (Store.mk [] [] [])
          ⟨"u1", none⟩ "always_rule" "always_rule" "en" dailyFacts {} "n1" "a1").2
        ⟨"u1", none⟩ "always_rule" "always_rule" "en" dailyFacts {} "n2" "a2").1.status
        = .suppressed_dedup) :=
  ⟨fun _ _ _ => rfl, by decide, by decide⟩

/-- C4 counterexample: the key written for rule `welcome`, user `u1`,
scope `2026-02-24` has three colon-joined components and differs from
the claimed four-component key with an empty community slot. -/
theorem c4_counterexample :
    compute_dedup_key "welcome" "u1" "2026-02-24" = "welcome:u1:2026-02-24"
    ∧ compute_dedup_key "welcome" "u1" "2026-02-24" ≠ "welcome:u1::2026-02-24" := by
  decide

/-- C4 amended: the dedup key written to the created NudgeLog row is
composed of three components — rule id, user id and dedup scope, in
that order — with no community-id component. -/
theorem c4_amended_key_is_rule_user_scope (st : Store)
    (ruleId userId scope nu au : String)
    (h : ∀ r ∈ st.nudgeLogs, r.dedup_key ≠ compute_dedup_key ruleId userId scope) :
    (try_create_nudge st ruleId userId scope
      (compute_dedup_key ruleId userId scope) nu au).2.nudgeLogs.getLast?
      = some { id := nu, rule_id := ruleId, user_id := userId,
               community_id := none,
               dedup_key := ruleId ++ ":" ++ userId ++ ":" ++ scope,
               status := "created" } := by
  have hne : ¬ ∃ x ∈ st.nudgeLogs,
      x.dedup_key = ruleId ++ ":" ++ userId ++ ":" ++ scope := by
    rintro ⟨x, hx, hk⟩
    exact h x hx hk
  simp [try_create_nudge, compute_dedup_key, hne]

/-- C4 witness: the empty store, rule `welcome`, user `u1`, daily scope. -/
theorem c4_amended_witness :
    (∀ r ∈ (Store.mk [] [] []).nudgeLogs,
      r.dedup_key ≠ compute_dedup_key "welcome" "u1" "2026-02-24")
    ∧ (try_create_nudge (Store.mk [] [] []) "welcome" "u1" "2026-02-24"
        (compute_dedup_key "welcome" "u1" "2026-02-24") "n1" "a1").2.nudgeLogs.getLast?
        = some { id := "n1", rule_id := "welcome", user_id := "u1",
                 community_id := none,
                 dedup_key := "welcome" ++ ":" ++ "u1" ++ ":" ++ "2026-02-24",
                 status := "created" } :=
  ⟨by simp, c4_amended_key_is_rule_user_scope (Store.mk [] [] [])
    "welcome" "u1" "2026-02-24" "n1" "a1" (by simp)⟩

/-- C5 (code bug): `_evaluate_rule` has no `kpi_conditions` branch —
every rule of that kind falls to the default passthrough and triggers
unconditionally with no reason, never walking the clause list;
concretely, a `kpi_conditions` rule whose single clause reads an absent
fact still triggers instead of failing with `missing_fact:ratio_x`. -/
theorem c5_kpi_conditions_fall_to_passthrough :
    (∀ (r : Rule) (facts : Facts),
      evaluate_rule
        { r with definition := { r.definition with kind := some "kpi_conditions" } }
        facts = (true, facts, none))
    ∧ evaluate_rule kpiRule dailyFacts = (true, dailyFacts, none)
    ∧ dailyFacts "ratio_x" = none :=
  ⟨fun _ _ => rfl, rfl, rfl⟩

/-- C6 counterexample: with an `en` template on file for rule `welcome`,
a lookup for language `it` does not fall back to `en` — it fails, and
the run is audited and surfaced as an UNKNOWN_SCENARIO outcome. -/
theorem c6_counterexample :
    load_rule_and_template [welcomeRule] [welcomeTemplateEn] "welcome" "it"
      = .error "Template not found for rule=welcome lang=it"
    ∧ welcomeTemplateEn.rule_id = "welcome" ∧ welcomeTemplateEn.lang = "en"
    ∧ (run_single_rule [welcomeRule] [welcomeTemplateEn] (Store.mk [] [] [])
        ⟨"u1", none⟩ "welcome" "welcome" "it" dailyFacts {} "n1" "a1").1
      = { status := .unknown_scenario,
          reason := some "Template not found for rule=welcome lang=it" } := by
  refine ⟨rfl, rfl, rfl, ?_⟩
  decide

/-- C6 amended: template resolution looks up only the requested
language; when the enabled rule exists but that language has no
template, processing fails with an UNKNOWN_SCENARIO outcome carrying
the template-not-found reason, audited to NudgeLog and surfaced to the
caller — there is no fallback lookup of the default language. -/
theorem c6_amended_no_language_fallback (rules : List Rule)
    (templates : List Template) (st : Store) (evt : Evt)
    (ruleId scenario lang : String) (factsIn : Facts) (now : NowParts)
    (nu au : String) (rule : Rule)
    (hrule : rules.find? (fun r => r.id = ruleId && r.enabled) = some rule)
    (htmpl : templates.find? (fun t => t.rule_id = rule.id && t.lang = lang) = none) :
    (run_single_rule rules templates st evt ruleId scenario lang factsIn now
      nu au).1
      = { status := .unknown_scenario,
          reason := some ("Template not found for rule=" ++ ruleId ++ " lang=" ++ lang) }
    ∧ (run_single_rule rules templates st evt ruleId scenario lang factsIn now
        nu au).2.nudgeLogs
      = st.nudgeLogs ++
        [{ id := au, rule_id := ruleId, user_id := evt.user_id,
           community_id := none,
           dedup_key := attempt_dedup_key ruleId evt.user_id
             (fallbackScope factsIn) au,
           status := "unknown_scenario" }] := by
  have hload : load_rule_and_template rules templates ruleId lang
      = .error ("Template not found for rule=" ++ ruleId ++ " lang=" ++ lang) := by
    unfold load_rule_and_template
    rw [hrule]
    dsimp only
    rw [htmpl]
  unfold run_single_rule
  rw [hload]
  exact ⟨rfl, rfl⟩

/-- C6 witness: rule `welcome` with only an `en` template, requested
language `it`. -/
theorem c6_amended_witness :
    ([welcomeRule].find? (fun r => r.id = "welcome" && r.enabled) = some welcomeRule)
    ∧ ([welcomeTemplateEn].find?
        (fun t => t.rule_id = welcomeRule.id && t.lang = "it") = none)
    ∧ (run_single_rule [welcomeRule] [welcomeTemplateEn] (Store.mk [] [] [])
        ⟨"u1", none⟩ "welcome" "welcome" "it" dailyFacts {} "n1" "a1").1
      = { status := .unknown_scenario,
          reason := some ("Template not found for rule=" ++ "welcome" ++ " lang=" ++ "it") } :=
  ⟨by decide, by decide,
    (c6_amended_no_language_fallback [welcomeRule] [welcomeTemplateEn]
      (Store.mk [] [] []) ⟨"u1", none⟩ "welcome" "welcome" "it" dailyFacts {}
      "n1" "a1" welcomeRule (by decide) (by decide)).1⟩

/-- C7 counterexample: the scenario `ghost` is declared by no rule and
mapped by no setting, yet the batch reports
`no_rule_for_inferred_frequency` — not `scenario_not_mapped` — because
the resolver's dev fallback turns the unmapped scenario into a
candidate rule id. -/
theorem c7_counterexample :
    ([welcomeRule].all (fun r => !r.definition.scenarios.contains "ghost"))
    ∧ (dictGet [("welcome", ["welcome"])] "ghost" = none)
    ∧ ((run_engine_batch demoSettings [welcomeRule] [welcomeTemplateEn] []
        (Store.mk [] [] []) ⟨"u1", none⟩ ghostFacts (some "en") {} demoUuids).1
      = [{ status := .unknown_scenario,
           reason := some "no_rule_for_inferred_frequency" }])
    ∧ ((run_engine_batch demoSettings [welcomeRule] [welcomeTemplateEn] []
        (Store.mk [] [] []) ⟨"u1", none⟩ ghostFacts (some "en") {} demoUuids).1.all
          (fun r => r.reason ≠ some "scenario_not_mapped")) := by
  refine ⟨rfl, rfl, by decide, by decide⟩

/-- C7 amended: the two zero-candidate failures are distinguished, but
`scenario_not_mapped` arises only when the scenario mapping itself
yields an empty candidate list (the dev fallback otherwise supplies the
scenario string as a candidate); a mapped-but-frequency-mismatched
scenario yields `no_rule_for_inferred_frequency`; both outcomes are
audited to NudgeLog with status `unknown_scenario`. -/
theorem c7_amended_zero_candidate_reasons
    (s1 s2 : Settings) (rules1 rules2 : List Rule) (tpls1 tpls2 : List Template)
    (prefs1 prefs2 : List UserPreference) (st1 st2 : Store) (evt1 evt2 : Evt)
    (f1 f2 : Facts) (la1 la2 : Option String) (now : NowParts)
    (u1 u2 : Nat → String) (ts1 ts2 : TimeScope) (rids2 : List String)
    (hc1 : (validate_facts_contract f1).1 = true)
    (ht1 : infer_time_scope f1 = some ts1)
    (hr1 : resolve_rule_ids_from_scenario s1 (scenarioOf f1) = [])
    (hc2 : (validate_facts_contract f2).1 = true)
    (ht2 : infer_time_scope f2 = some ts2)
    (hr2 : resolve_rule_ids_from_scenario s2 (scenarioOf f2) = rids2)
    (hne2 : rids2 ≠ [])
    (hf2 : filter_rule_ids_by_definition rules2 rids2 ts2.frequency = []) :
    ((run_engine_batch s1 rules1 tpls1 prefs1 st1 evt1 f1 la1 now u1).1
      = [{ status := .unknown_scenario, reason := some "scenario_not_mapped" }])
    ∧ ((run_engine_batch s1 rules1 tpls1 prefs1 st1 evt1 f1 la1 now u1).2.nudgeLogs
      = st1.nudgeLogs ++
        [{ id := u1 0, rule_id := "__no_rule__", user_id := evt1.user_id,
           community_id := none,
           dedup_key := attempt_dedup_key "__no_rule__" evt1.user_id ts1.scope (u1 0),
           status := "unknown_scenario" }])
    ∧ ((run_engine_batch s2 rules2 tpls2 prefs2 st2 evt2 f2 la2 now u2).1
      = [{ status := .unknown_scenario,
           reason := some "no_rule_for_inferred_frequency" }])
    ∧ ((run_engine_batch s2 rules2 tpls2 prefs2 st2 evt2 f2 la2 now u2).2.nudgeLogs
      = st2.nudgeLogs ++
        [{ id := u2 0, rule_id := "__no_rule__", user_id := evt2.user_id,
           community_id := none,
           dedup_key := attempt_dedup_key "__no_rule__" evt2.user_id ts2.scope (u2 0),
           status := "unknown_scenario" }]) := by
  have hisempty2 : rids2.isEmpty = false := by
    cases rids2 with
    | nil => exact absurd rfl hne2
    | cons a t => rfl
  refine ⟨?_, ?_, ?_, ?_⟩
  · unfold run_engine_batch
    dsimp only
    rw [hc1, ht1]
    dsimp only
    rw [hr1]
    rfl
  · unfold run_engine_batch
    dsimp only
    rw [hc1, ht1]
    dsimp only
    rw [hr1]
    rfl
  · unfold run_engine_batch
    dsimp only
    rw [hc2, ht2]
    dsimp only
    rw [hr2, hisempty2]
    rw [hf2]
    rfl
  · unfold run_engine_batch
    dsimp only
    rw [hc2, ht2]
    dsimp only
    rw [hr2, hisempty2]
    rw [hf2]
    rfl

/-- C7 witness: `ghost` mapped to an empty list on one side; `ghost`
unmapped with no matching rule on the other. -/
theorem c7_amended_witness :
    ((validate_facts_contract ghostFacts).1 = true)
    ∧ (infer_time_scope ghostFacts = some ⟨"daily", "2026-02-24"⟩)
    ∧ (resolve_rule_ids_from_scenario emptyMappedSettings (scenarioOf ghostFacts) = [])
    ∧ (resolve_rule_ids_from_scenario demoSettings (scenarioOf ghostFacts) = ["ghost"])
    ∧ (["ghost"] ≠ ([] : List String))
    ∧ (filter_rule_ids_by_definition [welcomeRule] ["ghost"] "daily" = [])
    ∧ ((run_engine_batch emptyMappedSettings [] [] [] (Store.mk [] [] [])
        ⟨"u1", none⟩ ghostFacts (some "en") {} demoUuids).1
      = [{ status := .unknown_scenario, reason := some "scenario_not_mapped" }])
    ∧ ((run_engine_batch demoSettings [welcomeRule] [] [] (Store.mk [] [] [])
        ⟨"u1", none⟩ ghostFacts (some "en") {} demoUuids).1
      = [{ status := .unknown_scenario,
           reason := some "no_rule_for_inferred_frequency" }]) :=
  ⟨by decide, by decide, by decide, by decide, by decide, by decide,
    (c7_amended_zero_candidate_reasons emptyMappedSettings demoSettings
      [] [welcomeRule] [] [] [] [] (Store.mk [] [] []) (Store.mk [] [] [])
      ⟨"u1", none⟩ ⟨"u1", none⟩ ghostFacts ghostFacts (some "en") (some "en")
      {} demoUuids demoUuids ⟨"daily", "2026-02-24"⟩ ⟨"daily", "2026-02-24"⟩
      ["ghost"] (by decide) (by decide) (by decide) (by decide) (by decide)
      (by decide) (by decide) (by decide)).1,
    (c7_amended_zero_candidate_reasons emptyMappedSettings demoSettings
      [] [welcomeRule] [] [] [] [] (Store.mk [] [] []) (Store.mk [] [] [])
      ⟨"u1", none⟩ ⟨"u1", none⟩ ghostFacts ghostFacts (some "en") (some "en")
      {} demoUuids demoUuids ⟨"daily", "2026-02-24"⟩ ⟨"daily", "2026-02-24"⟩
      ["ghost"] (by decide) (by decide) (by decide) (by decide) (by decide)
      (by decide) (by decide) (by decide)).2.2.1⟩

/-- C8: the effective preference is the community-specific row if
present, else the community-null row (`get_user_pref` equals the
spec-side two-step lookup), else a default `max_per_day` of 3; and when
the count of today's `sent` DeliveryLog rows for the user's destination
base reaches that cap, `orchestrate` writes a suppressed DeliveryLog
row with error `rate_limited`, flips the notification to `suppressed`,
and returns zero delivery jobs. -/
theorem c8_rate_limit_hard_cap (prefs : List UserPreference) (st : Store)
    (nudgeId uuid : String) (today : Int)
    (publish : DeliveryJob → PublishResult)
    (n : NudgeRow) (notif : NotificationRow)
    (hn : st.nudgeLogs.find? (fun r => r.id = nudgeId) = some n)
    (hnotif : st.notifications.filter (fun r => r.nudge_log_id = some nudgeId) = [notif])
    (hcap : sent_today_count st (dest_base n) today ≥
      effective_max_per_day prefs n.user_id n.community_id) :
    orchestrate prefs st nudgeId uuid today publish = .ok ([],
      { st with
        deliveryLogs := st.deliveryLogs ++
          [{ id := uuid, nudge_id := n.id, channel := "web",
             destination := dest_base n, status := "suppressed",
             error := some "rate_limited", sentDay := none }],
        notifications := st.notifications.map (fun r =>
          if r.id = notif.id then { r with status := "suppressed" } else r) })
    ∧ (∀ (ps : List UserPreference) (uu : String) (cc : Option String),
        get_user_pref ps uu cc = get_user_pref_spec ps uu cc)
    ∧ (∀ (ps : List UserPreference) (uu : String) (cc : Option String),
        get_user_pref ps uu cc = none → effective_max_per_day ps uu cc = 3) := by
  have hcs : can_send_today (sent_today_count st (dest_base n) today)
      (effective_max_per_day prefs n.user_id n.community_id) = false := by
    simp only [can_send_today, decide_eq_false_iff_not, not_lt]
    exact hcap
  refine ⟨?_, get_user_pref_eq_spec, ?_⟩
  · unfold orchestrate
    rw [hn, hnotif]
    dsimp only
    rw [hcs]
    rfl
  · intro ps uu cc h
    simp [effective_max_per_day, h]

/-- C8 witness: user `u1` with `max_per_day = 2` and two deliveries
already sent today. -/
theorem c8_witness :
    (ratedStore.nudgeLogs.find? (fun r => r.id = "n1") = some createdNudgeRow)
    ∧ (ratedStore.notifications.filter
        (fun r => r.nudge_log_id = some "n1") = [pendingNotification])
    ∧ (sent_today_count ratedStore (dest_base createdNudgeRow) 20508 ≥
        effective_max_per_day [u1Pref] createdNudgeRow.user_id
          createdNudgeRow.community_id)
    ∧ (orchestrate [u1Pref] ratedStore "n1" "job1" 20508
        (fun _ => { status := "sent" }) = .ok ([],
      { ratedStore with
        deliveryLogs := ratedStore.deliveryLogs ++
          [{ id := "job1", nudge_id := createdNudgeRow.id, channel := "web",
             destination := dest_base createdNudgeRow, status := "suppressed",
             error := some "rate_limited", sentDay := none }],
        notifications := ratedStore.notifications.map (fun r =>
          if r.id = pendingNotification.id then { r with status := "suppressed" }
          else r) })) :=
  ⟨by decide, by decide, by decide,
    (c8_rate_limit_hard_cap [u1Pref] ratedStore "n1" "job1" 20508
      (fun _ => { status := "sent" }) createdNudgeRow pendingNotification
      (by decide) (by decide) (by decide)).1⟩

/-- The recursive first-truthy lookup unfolds one key at a time into
the Python `or` step. -/
theorem firstTruthy_cons (f : Facts) (k : String) (ks : List String) :
    firstTruthy f (k :: ks) = pyOr (f k) (firstTruthy f ks) := by
  cases h : f k with
  | none => simp [firstTruthy, pyOr, h]
  | some v => cases hv : v.truthy <;> simp [firstTruthy, pyOr, h, hv]

/-- Classifying a raw value and classifying it after a final
`pyOr _ none` step agree: a falsy tail value fails classification
either way. -/
theorem classifyRaw_pyOr_none (a : Option FactVal) :
    (match a with
     | some (.s r) =>
       if strTrim r = "" then none else classifyTimeString (strTrim r)
     | _ => (none : Option TimeScope))
    = (match pyOr a none with
       | some (.s r) =>
         if strTrim r = "" then none else classifyTimeString (strTrim r)
       | _ => none) := by
  cases a with
  | none => rfl
  | some v =>
    cases v with
    | s r =>
      by_cases hr : r = ""
      · subst hr
        rfl
      · simp [pyOr, FactVal.truthy, hr]
    | n q =>
      by_cases hq : q = 0
      · subst hq
        rfl
      · simp [pyOr, FactVal.truthy, hq]

/-- C9 counterexample: at a present-but-empty `time` alias next to a
valid daily `date`, the code skips the empty value and infers daily,
while the claimed first-PRESENT reading takes the empty `time` value,
finds it unrecognized, and fails — the claim as stated is false of the
code. -/
theorem c9_counterexample :
    emptyTimeFacts "time" = some (.s "")
    ∧ infer_time_scope emptyTimeFacts = some ⟨"daily", "2026-02-24"⟩
    ∧ infer_time_scope_claim emptyTimeFacts = none := by
  refine ⟨rfl, by decide, by decide⟩

/-- C9 amended: `_infer_time_scope` reads the first TRUTHY value among
`time`, `date`, `week`, `period` in that priority order — a present but
falsy value (empty string, zero) is skipped in favor of later keys —
and classifies it (`YYYY-MM-DD` daily, `YYYY-Www` weekly, `YYYY-MM`
monthly, `YYYY` yearly): for every fact bundle, with no side condition,
the code equals the amended spec-side reading; normalization mirrors
the canonical scope into the frequency-appropriate key and `time`; and
an absent or unrecognized value makes the batch fail with MISSING_FACTS
reason `missing_or_invalid_time_scope`, audited to NudgeLog. -/
theorem c9_amended_first_truthy_time_value (facts f2 : Facts)
    (settings : Settings) (rules : List Rule) (templates : List Template)
    (prefs : List UserPreference) (st : Store) (evt : Evt)
    (la : Option String) (now : NowParts) (u : Nat → String)
    (hc2 : (validate_facts_contract f2).1 = true)
    (ht2 : infer_time_scope f2 = none) :
    infer_time_scope facts = infer_time_scope_amended facts
    ∧ (classifyTimeString "2026-02-24" = some ⟨"daily", "2026-02-24"⟩
      ∧ classifyTimeString "2026-W08" = some ⟨"weekly", "2026-W08"⟩
      ∧ classifyTimeString "2026-02" = some ⟨"monthly", "2026-02"⟩
      ∧ classifyTimeString "2026" = some ⟨"yearly", "2026"⟩
      ∧ classifyTimeString "not-a-date" = none)
    ∧ (∀ (f : Facts) (x : String),
        (normalize_time_fields f ⟨"daily", x⟩) "time" = some (.s x)
        ∧ (normalize_time_fields f ⟨"daily", x⟩) "date" = some (.s x)
        ∧ (normalize_time_fields f ⟨"weekly", x⟩) "time" = some (.s x)
        ∧ (normalize_time_fields f ⟨"weekly", x⟩) "week" = some (.s x)
        ∧ (normalize_time_fields f ⟨"monthly", x⟩) "time" = some (.s x)
        ∧ (normalize_time_fields f ⟨"monthly", x⟩) "period" = some (.s x)
        ∧ (normalize_time_fields f ⟨"yearly", x⟩) "time" = some (.s x)
        ∧ (normalize_time_fields f ⟨"yearly", x⟩) "period" = some (.s x))
    ∧ ((run_engine_batch settings rules templates prefs st evt f2 la now u).1
        = [{ status := .missing_facts,
             reason := some "missing_or_invalid_time_scope" }])
    ∧ ((run_engine_batch settings rules templates prefs st evt f2 la now u).2.nudgeLogs
        = st.nudgeLogs ++
          [{ id := u 0, rule_id := "__no_rule__", user_id := evt.user_id,
             community_id := none,
             dedup_key := attempt_dedup_key "__no_rule__" evt.user_id
               "__no_scope__" (u 0),
             status := "missing_facts" }]) := by
  refine ⟨?_, by refine ⟨rfl, rfl, rfl, rfl, rfl⟩, ?_, ?_, ?_⟩
  · unfold infer_time_scope infer_time_scope_amended
    rw [firstTruthy_cons, firstTruthy_cons, firstTruthy_cons, firstTruthy_cons]
    simp only [firstTruthy]
    cases e1 : facts "time" with
    | some v1 =>
      cases hv1 : v1.truthy
      · simp only [pyOr, hv1, Bool.false_eq_true, if_false]
        cases e2 : facts "date" with
        | some v2 =>
          cases hv2 : v2.truthy
          · simp only [pyOr, hv2, Bool.false_eq_true, if_false]
            cases e3 : facts "week" with
            | some v3 =>
              cases hv3 : v3.truthy
              · simp only [pyOr, hv3, Bool.false_eq_true, if_false]
                exact classifyRaw_pyOr_none (facts "period")
              · simp only [pyOr, hv3, if_true]
            | none =>
              simp only [pyOr]
              exact classifyRaw_pyOr_none (facts "period")
          · simp only [pyOr, hv2, if_true]
        | none =>
          simp only [pyOr]
          cases e3 : facts "week" with
          | some v3 =>
            cases hv3 : v3.truthy
            · simp only [pyOr, hv3, Bool.false_eq_true, if_false]
              exact classifyRaw_pyOr_none (facts "period")
            · simp only [pyOr, hv3, if_true]
          | none =>
            simp only [pyOr]
            exact classifyRaw_pyOr_none (facts "period")
      · simp only [pyOr, hv1, if_true]
    | none =>
      simp only [pyOr]
      cases e2 : facts "date" with
      | some v2 =>
        cases hv2 : v2.truthy
        · simp only [pyOr, hv2, Bool.false_eq_true, if_false]
          cases e3 : facts "week" with
          | some v3 =>
            cases hv3 : v3.truthy
            · simp only [pyOr, hv3, Bool.false_eq_true, if_false]
              exact classifyRaw_pyOr_none (facts "period")
            · simp only [pyOr, hv3, if_true]
          | none =>
            simp only [pyOr]
            exact classifyRaw_pyOr_none (facts "period")
        · simp only [pyOr, hv2, if_true]
      | none =>
        simp only [pyOr]
        cases e3 : facts "week" with
        | some v3 =>
          cases hv3 : v3.truthy
          · simp only [pyOr, hv3, Bool.false_eq_true, if_false]
            exact classifyRaw_pyOr_none (facts "period")
          · simp only [pyOr, hv3, if_true]
        | none =>
          simp only [pyOr]
          exact classifyRaw_pyOr_none (facts "period")
  · intro f x
    refine ⟨rfl, rfl, rfl, rfl, rfl, rfl, rfl, rfl⟩
  · unfold run_engine_batch
    dsimp only
    rw [hc2, ht2]
    rfl
  · unfold run_engine_batch
    dsimp only
    rw [hc2, ht2]
    rfl

/-- C9 witness: `emptyTimeFacts` (empty `time`, valid `date`) for the
equality side and `badTimeFacts` (`time = "not-a-date"`) for the
failure side. -/
theorem c9_amended_witness :
    ((validate_facts_contract badTimeFacts).1 = true)
    ∧ (infer_time_scope badTimeFacts = none)
    ∧ (infer_time_scope emptyTimeFacts = infer_time_scope_amended emptyTimeFacts)
    ∧ (infer_time_scope emptyTimeFacts = some ⟨"daily", "2026-02-24"⟩)
    ∧ ((run_engine_batch demoSettings [welcomeRule] [welcomeTemplateEn] []
        (Store.mk [] [] []) ⟨"u1", none⟩ badTimeFacts (some "en") {} demoUuids).1
      = [{ status := .missing_facts,
           reason := some "missing_or_invalid_time_scope" }]) :=
  ⟨by decide, by decide,
   (c9_amended_first_truthy_time_value emptyTimeFacts badTimeFacts demoSettings
      [welcomeRule] [welcomeTemplateEn] [] (Store.mk [] [] []) ⟨"u1", none⟩
      (some "en") {} demoUuids (by decide) (by decide)).1,
   by decide,
   (c9_amended_first_truthy_time_value emptyTimeFacts badTimeFacts demoSettings
      [welcomeRule] [welcomeTemplateEn] [] (Store.mk [] [] []) ⟨"u1", none⟩
      (some "en") {} demoUuids (by decide) (by decide)).2.2.2.1⟩

/-- C10 counterexample: under an undocumented dedup window, a PRESENT
but empty `period` fact is not used as the scope — the code falls back
to the current UTC month — so the claim's unqualified "when present"
wording is false of the code. -/
theorem c10_counterexample :
    emptyPeriodFacts "period" = some (.s "")
    ∧ dedup_scope fortnightlyRule emptyPeriodFacts {} = ({} : NowParts).month
    ∧ ({} : NowParts).month ≠ "" := by
  refine ⟨rfl, by decide, by decide⟩

/-- C10 amended: for every rule whose `dedup_window` is missing or
outside the documented set, the dedup scope silently falls to the
monthly bucket: `facts["period"]` when present and non-empty, otherwise
(absent or present-but-empty) the current UTC month. -/
theorem c10_unknown_window_defaults_to_monthly_bucket
    (r : Rule) (facts facts2 facts3 : Facts) (now : NowParts) (p : String)
    (hw : r.definition.dedup_window = none ∨
      ∃ w, r.definition.dedup_window = some w ∧
        strTrim (strToLower w) ∉
          (["always", "once", "one", "hourly", "daily", "weekly", "monthly",
            "yearly"] : List String))
    (hp : facts "period" = some (.s p)) (hpne : p ≠ "")
    (hp2 : facts2 "period" = none)
    (hp3 : facts3 "period" = some (.s "")) :
    dedup_scope r facts now = p
    ∧ dedup_scope r facts2 now = now.month
    ∧ dedup_scope r facts3 now = now.month := by
  have hbranch : ∀ (f : Facts),
      dedup_scope r f now = f.getStrOr "period" now.month := by
    intro f
    unfold dedup_scope
    rcases hw with hw | ⟨w, hw, hmem⟩
    · rw [hw]
      rfl
    · rw [hw]
      by_cases hwe : w = ""
      · subst hwe
        rfl
      · simp only [List.mem_cons, List.not_mem_nil, or_false, not_or] at hmem
        obtain ⟨m1, m2, m3, m4, m5, m6, m7, m8⟩ := hmem
        simp [hwe, m1, m2, m3, m4, m5, m6, m7, m8]
  refine ⟨?_, ?_, ?_⟩
  · rw [hbranch facts]
    simp [Facts.getStrOr, hp, FactVal.truthy, hpne, FactVal.pyStr]
  · rw [hbranch facts2]
    simp [Facts.getStrOr, hp2]
  · rw [hbranch facts3]
    simp [Facts.getStrOr, hp3, FactVal.truthy]

/-- C10 witness: window `fortnightly`; period present-and-non-empty vs
absent vs present-but-empty. -/
theorem c10_witness :
    (fortnightlyRule.definition.dedup_window = none ∨
      ∃ w, fortnightlyRule.definition.dedup_window = some w ∧
        strTrim (strToLower w) ∉
          (["always", "once", "one", "hourly", "daily", "weekly", "monthly",
            "yearly"] : List String))
    ∧ ((fun k => if k = "period" then some (FactVal.s "2026-02") else none) "period"
        = some (.s "2026-02"))
    ∧ ("2026-02" ≠ "")
    ∧ (((fun _ => none) : Facts) "period" = none)
    ∧ (emptyPeriodFacts "period" = some (.s ""))
    ∧ (dedup_scope fortnightlyRule
        (fun k => if k = "period" then some (FactVal.s "2026-02") else none)
        {} = "2026-02"
      ∧ dedup_scope fortnightlyRule ((fun _ => none) : Facts) {} = "2026-02"
      ∧ dedup_scope fortnightlyRule emptyPeriodFacts {} = "2026-02") :=
  ⟨Or.inr ⟨"fortnightly", rfl, by decide⟩, rfl, by decide, rfl, rfl,
    c10_unknown_window_defaults_to_monthly_bucket fortnightlyRule
      (fun k => if k = "period" then some (FactVal.s "2026-02") else none)
      ((fun _ => none) : Facts) emptyPeriodFacts {} "2026-02"
      (Or.inr ⟨"fortnightly", rfl, by decide⟩) rfl (by decide) rfl rfl⟩

end Nudging
